import Mathlib

set_option maxHeartbeats 1000000

/-
Verification development for the waste-tips backend: a shallow embedding of
the request-validation and orchestration pipeline (localizer, postal-code
validator, image validator, verification gateway, analysis-response
extraction, HTTP boundary) together with theorems about its behaviour.
-/

/-- Localized error message bundle, one per language (localizer.go, `ErrorMessages`). -/
structure ErrorMessages where
  InvalidPostalCode : String
  InvalidImage : String
  RecaptchaFailed : String
  ProcessingError : String
  MissingFields : String
  deriving DecidableEq

/-- The fixed set of supported language codes (localizer.go, `supportedLanguages`
map whose every entry is `true`; lookup of an absent key yields `false`). -/
def supportedLanguagesList : List String :=
  ["de", "en", "tr", "ru", "pl",
   "ar", "ku", "it", "bs", "hr",
   "sr", "ro", "el", "es", "fr",
   "hi", "ur", "vi", "zh", "fa",
   "ps", "ta", "sq", "da", "uk"]

/-- The per-language error-message table (localizer.go, `errorMessages` map in
`NewLocalizer`), transcribed entry for entry. -/
def errorMessagesList : List (String × ErrorMessages) :=
  [("en",
    { InvalidPostalCode := "Invalid German postal code"
      InvalidImage := "Invalid image file"
      RecaptchaFailed := "reCAPTCHA verification failed"
      ProcessingError := "Error processing your request"
      MissingFields := "Missing required fields" }),
   ("de",
    { InvalidPostalCode := "Ungültige deutsche Postleitzahl"
      InvalidImage := "Ungültige Bilddatei"
      RecaptchaFailed := "reCAPTCHA-Verifizierung fehlgeschlagen"
      ProcessingError := "Fehler bei der Verarbeitung Ihrer Anfrage"
      MissingFields := "Pflichtfelder fehlen" }),
   ("ru",
    { InvalidPostalCode := "Неверный немецкий почтовый индекс"
      InvalidImage := "Неверный файл изображения"
      RecaptchaFailed := "Проверка reCAPTCHA не удалась"
      ProcessingError := "Ошибка обработки вашего запроса"
      MissingFields := "Отсутствуют обязательные поля" }),
   ("tr",
    { InvalidPostalCode := "Geçersiz Alman posta kodu"
      InvalidImage := "Geçersiz resim dosyası"
      RecaptchaFailed := "reCAPTCHA doğrulaması başarısız"
      ProcessingError := "İsteğinizi işleme hatası"
      MissingFields := "Gerekli alanlar eksik" }),
   ("pl",
    { InvalidPostalCode := "Nieprawidłowy niemiecki kod pocztowy"
      InvalidImage := "Nieprawidłowy plik obrazu"
      RecaptchaFailed := "Weryfikacja reCAPTCHA nie powiodła się"
      ProcessingError := "Błąd przetwarzania Twojego żądania"
      MissingFields := "Brakuje wymaganych pól" }),
   ("ar",
    { InvalidPostalCode := "رمز بريدي ألماني غير صالح"
      InvalidImage := "ملف صورة غير صالح"
      RecaptchaFailed := "فشل التحقق من reCAPTCHA"
      ProcessingError := "خطأ في معالجة طلبك"
      MissingFields := "حقول مطلوبة مفقودة" }),
   ("ku",
    { InvalidPostalCode := "Koda postê ya Almanî ya nederust"
      InvalidImage := "Pelê wêneyê nederust"
      RecaptchaFailed := "Piştrastkirina reCAPTCHA têk çû"
      ProcessingError := "Di pêvajoya daxwaza te de çewtî"
      MissingFields := "Zeviyên pêwîst kêm in" }),
   ("it",
    { InvalidPostalCode := "Codice postale tedesco non valido"
      InvalidImage := "File immagine non valido"
      RecaptchaFailed := "Verifica reCAPTCHA fallita"
      ProcessingError := "Errore nell\x27elaborazione della richiesta"
      MissingFields := "Campi obbligatori mancanti" }),
   ("bs",
    { InvalidPostalCode := "Neispravan njemački poštanski broj"
      InvalidImage := "Neispravna datoteka slike"
      RecaptchaFailed := "reCAPTCHA provjera neuspješna"
      ProcessingError := "Greška pri obradi zahtjeva"
      MissingFields := "Nedostaju obavezna polja" }),
   ("hr",
    { InvalidPostalCode := "Neispravan njemački poštanski broj"
      InvalidImage := "Neispravna datoteka slike"
      RecaptchaFailed := "reCAPTCHA provjera neuspješna"
      ProcessingError := "Greška pri obradi zahtjeva"
      MissingFields := "Nedostaju obavezna polja" }),
   ("sr",
    { InvalidPostalCode := "Неисправан немачки поштански број"
      InvalidImage := "Неисправна датотека слике"
      RecaptchaFailed := "reCAPTCHA провера неуспешна"
      ProcessingError := "Грешка при обради захтева"
      MissingFields := "Недостају обавезна поља" }),
   ("ro",
    { InvalidPostalCode := "Cod poștal german invalid"
      InvalidImage := "Fișier imagine invalid"
      RecaptchaFailed := "Verificarea reCAPTCHA a eșuat"
      ProcessingError := "Eroare la procesarea cererii"
      MissingFields := "Câmpuri obligatorii lipsă" }),
   ("el",
    { InvalidPostalCode := "Μη έγκυρος γερμανικός ταχυδρομικός κώδικας"
      InvalidImage := "Μη έγκυρο αρχείο εικόνας"
      RecaptchaFailed := "Η επαλήθευση reCAPTCHA απέτυχε"
      ProcessingError := "Σφάλμα επεξεργασίας του αιτήματός σας"
      MissingFields := "Λείπουν υποχρεωτικά πεδία" }),
   ("es",
    { InvalidPostalCode := "Código postal alemán inválido"
      InvalidImage := "Archivo de imagen inválido"
      RecaptchaFailed := "Verificación reCAPTCHA fallida"
      ProcessingError := "Error procesando su solicitud"
      MissingFields := "Faltan campos requeridos" }),
   ("fr",
    { InvalidPostalCode := "Code postal allemand invalide"
      InvalidImage := "Fichier image invalide"
      RecaptchaFailed := "Échec de la vérification reCAPTCHA"
      ProcessingError := "Erreur lors du traitement de votre demande"
      MissingFields := "Champs requis manquants" }),
   ("hi",
    { InvalidPostalCode := "अमान्य जर्मन पोस्टल कोड"
      InvalidImage := "अमान्य छवि फ़ाइल"
      RecaptchaFailed := "reCAPTCHA सत्यापन विफल"
      ProcessingError := "आपके अनुरोध को संसाधित करने में त्रुटि"
      MissingFields := "आवश्यक फ़ील्ड गुम हैं" }),
   ("ur",
    { InvalidPostalCode := "غلط جرمن پوسٹل کوڈ"
      InvalidImage := "غلط تصویری فائل"
      RecaptchaFailed := "reCAPTCHA تصدیق ناکام"
      ProcessingError := "آپ کی درخواست پر عمل کرنے میں خرابی"
      MissingFields := "ضروری فیلڈز غائب ہیں" }),
   ("vi",
    { InvalidPostalCode := "Mã bưu điện Đức không hợp lệ"
      InvalidImage := "Tệp hình ảnh không hợp lệ"
      RecaptchaFailed := "Xác minh reCAPTCHA thất bại"
      ProcessingError := "Lỗi xử lý yêu cầu của bạn"
      MissingFields := "Thiếu các trường bắt buộc" }),
   ("zh",
    { InvalidPostalCode := "无效的德国邮政编码"
      InvalidImage := "无效的图像文件"
      RecaptchaFailed := "reCAPTCHA验证失败"
      ProcessingError := "处理您的请求时出错"
      MissingFields := "缺少必填字段" }),
   ("fa",
    { InvalidPostalCode := "کد پستی آلمان نامعتبر"
      InvalidImage := "فایل تصویر نامعتبر"
      RecaptchaFailed := "تأیید reCAPTCHA ناموفق"
      ProcessingError := "خطا در پردازش درخواست شما"
      MissingFields := "فیلدهای ضروری موجود نیست" }),
   ("ps",
    { InvalidPostalCode := "د آلمان د پوستې غلط کوډ"
      InvalidImage := "د انځور غلط دوتنه"
      RecaptchaFailed := "د reCAPTCHA تصدیق ناکام"
      ProcessingError := "ستاسو د غوښتنې پروسس کولو کې تېروتنه"
      MissingFields := "اړین ساحې ورک دي" }),
   ("ta",
    { InvalidPostalCode := "தவறான ஜெர்மன் அஞ்சல் குறியீடு"
      InvalidImage := "தவறான படக் கோப்பு"
      RecaptchaFailed := "reCAPTCHA சரிபார்ப்பு தோல்வி"
      ProcessingError := "உங்கள் கோரிக்கையை செயலாக்குவதில் பிழை"
      MissingFields := "தேவையான புலங்கள் காணவில்லை" }),
   ("sq",
    { InvalidPostalCode := "Kod postar gjerman i pavlefshëm"
      InvalidImage := "Skedar imazhi i pavlefshëm"
      RecaptchaFailed := "Verifikimi reCAPTCHA dështoi"
      ProcessingError := "Gabim në përpunimin e kërkesës suaj"
      MissingFields := "Mungojnë fushat e detyrueshme" }),
   ("da",
    { InvalidPostalCode := "Ugyldig tysk postnummer"
      InvalidImage := "Ugyldig billedfil"
      RecaptchaFailed := "reCAPTCHA-verifikation mislykkedes"
      ProcessingError := "Fejl ved behandling af din anmodning"
      MissingFields := "Manglende påkrævede felter" }),
   ("uk",
    { InvalidPostalCode := "Недійсний німецький поштовий індекс"
      InvalidImage := "Недійсний файл зображення"
      RecaptchaFailed := "Перевірка reCAPTCHA не вдалася"
      ProcessingError := "Помилка обробки вашого запиту"
      MissingFields := "Відсутні обов\x27язкові поля" })]

/-- IsLanguageSupported (localizer.go): membership in the supported-language map. -/
def IsLanguageSupported (language : String) : Bool :=
  supportedLanguagesList.contains language

/-- Selects the field of an `ErrorMessages` bundle named by `messageType`,
mirroring the `switch` statements of `GetErrorMessage` (localizer.go). -/
def messageField (m : ErrorMessages) (messageType : String) : Option String :=
  if messageType = "invalid_postal_code" then some m.InvalidPostalCode
  else if messageType = "invalid_image" then some m.InvalidImage
  else if messageType = "recaptcha_failed" then some m.RecaptchaFailed
  else if messageType = "processing_error" then some m.ProcessingError
  else if messageType = "missing_fields" then some m.MissingFields
  else none

/-- GetErrorMessage (localizer.go): look the language up in the message table;
on a miss (absent language, or a message type outside the switch) fall back to
the English entry, and finally to the generic string. -/
def GetErrorMessage (language messageType : String) : String :=
  match errorMessagesList.lookup language with
  | some msgs =>
    match messageField msgs messageType with
    | some s => s
    | none =>
      match errorMessagesList.lookup "en" with
      | some en =>
        match messageField en messageType with
        | some s => s
        | none => "An error occurred"
      | none => "An error occurred"
  | none =>
    match errorMessagesList.lookup "en" with
    | some en =>
      match messageField en messageType with
      | some s => s
      | none => "An error occurred"
    | none => "An error occurred"

/-- The five error kinds consumed by the pipeline. -/
def errorKinds : List String :=
  ["invalid_postal_code", "invalid_image", "recaptcha_failed",
   "processing_error", "missing_fields"]

/-- Decimal parse of a digit string, as `fmt.Sscanf` with verb `%d` reads a
string of ASCII digits (waste_sorting_service.go, `isValidGermanPostalCode`). -/
def strToNat (l : List Char) : Nat :=
  l.foldl (fun n c => n * 10 + (c.toNat - 48)) 0

/-- isValidGermanPostalCode (waste_sorting_service.go): the string must match
the regular expression of exactly five ASCII digits, and its decimal value
must lie between 1001 and 99998. -/
def isValidGermanPostalCode (postalCode : String) : Bool :=
  if !(postalCode.data.length == 5 && postalCode.data.all Char.isDigit) then
    false
  else
    let code := strToNat postalCode.data
    decide (1001 ≤ code ∧ code ≤ 99998)

/-- The content-type allow list of isValidImageFile (waste_sorting_service.go). -/
def validImageTypes : List String :=
  ["image/jpeg", "image/jpg", "image/png", "image/gif", "image/webp"]

/-- isValidImageFile (waste_sorting_service.go): a nil file header is rejected;
otherwise the declared Content-Type must equal one of the allow-listed types. -/
def isValidImageFile (header : Option String) : Bool :=
  match header with
  | none => false
  | some contentType => validImageTypes.contains contentType

/-- One text segment of a generated candidate (`genai.Part`, field `Text`). -/
structure GenaiPart where
  text : List Char
  deriving DecidableEq

/-- The content of a candidate (`genai.Content`, field `Parts`). -/
structure GenaiContent where
  parts : List GenaiPart
  deriving DecidableEq

/-- One generation candidate (`genai.Candidate`, optional `Content`). -/
structure GenaiCandidate where
  content : Option GenaiContent
  deriving DecidableEq

/-- Latin-1 white-space predicate of `strings.TrimSpace` (`unicode.IsSpace`
restricted to the Latin-1 range, which covers every character the claims and
the error paths exercise). -/
def isSpaceGo (c : Char) : Bool :=
  c = ' ' || c = '\t' || c = '\n' || c = '\x0B' || c = '\x0C' || c = '\r' ||
  c = '\u0085' || c = '\u00A0'

/-- strings.TrimSpace on a character list: drop white space from both ends. -/
def trimChars (l : List Char) : List Char :=
  ((l.dropWhile isSpaceGo).reverse.dropWhile isSpaceGo).reverse

/-- The concatenation loop over a candidate's parts
(waste_sorting_service.go, `processImageWithGemini`): append each part's text,
guarded by the emptiness test of the source. -/
def concatParts (parts : List GenaiPart) : List Char :=
  parts.foldl (fun acc p => if p.text = [] then acc else acc ++ p.text) []

/-- Splits a character list at the first occurrence of `pat`, returning the
piece strictly before it; fails when `pat` never occurs. -/
def splitAtFirst (pat : List Char) : List Char → Option (List Char)
  | [] => none
  | c :: rest =>
    if pat.isPrefixOf (c :: rest) then some []
    else
      match splitAtFirst pat rest with
      | some pre => some (c :: pre)
      | none => none

/-- Attempts to match the anchored regular expression
`(yes-dot-all)<body[^>]*>(lazy-any)</body>` at the head of the list: after the
literal `<body`, the attribute run stops at the first `>`, and the captured
group is everything up to the first following `</body>`. -/
def tryMatchBody (l : List Char) : Option (List Char) :=
  if ("<body".toList).isPrefixOf l then
    match (l.drop 5).dropWhile (fun c => c ≠ '>') with
    | [] => none
    | _ :: tail => splitAtFirst ("</body>".toList) tail
  else none

/-- Leftmost match of the body-extraction regular expression of
`processImageWithGemini`: scan start positions left to right and return the
first captured group. -/
def findBodyContent : List Char → Option (List Char)
  | [] => none
  | c :: rest =>
    match tryMatchBody (c :: rest) with
    | some content => some content
    | none => findBodyContent rest

/-- The assignment following `FindStringSubmatch` in the source: the captured
group when the regular expression matches, the empty string otherwise. -/
def extractBody (textResponse : List Char) : List Char :=
  match findBodyContent textResponse with
  | some m => m
  | none => []

/-- The candidate loop of `processImageWithGemini`
(waste_sorting_service.go): skip candidates with no content or no parts,
concatenate the texts, keep only the first body-tag group, trim, skip when
empty, and return the first survivor. -/
def extractFromCandidates : List GenaiCandidate → Option (List Char)
  | [] => none
  | cand :: rest =>
    match cand.content with
    | none => extractFromCandidates rest
    | some content =>
      if content.parts = [] then extractFromCandidates rest
      else if concatParts content.parts = [] then extractFromCandidates rest
      else if trimChars (extractBody (concatParts content.parts)) = [] then
        extractFromCandidates rest
      else some (trimChars (extractBody (concatParts content.parts)))

/-- Modelled from the spec: the text of a candidate is the concatenation of
all its text segments. -/
def specCandidateText (cand : GenaiCandidate) : List Char :=
  match cand.content with
  | none => []
  | some content => (content.parts.map GenaiPart.text).flatten

/-- Modelled from the spec (amended to the case-sensitive matching the source
performs): the extracted content of a candidate is the part between the first
body markers, trimmed of white space. -/
def specExtractedContent (cand : GenaiCandidate) : List Char :=
  trimChars (extractBody (specCandidateText cand))

/-- Modelled from the spec (amended to case-sensitive matching): the first
candidate whose extracted content is non-empty wins; no winner means failure. -/
def specExtractFirstUsable (cands : List GenaiCandidate) : Option (List Char) :=
  (cands.map specExtractedContent).find? (fun t => !t.isEmpty)

/-- Case-insensitive prefix test (`pat` is given in lower case). -/
def isPrefixCI (pat l : List Char) : Bool :=
  pat.isPrefixOf (l.map Char.toLower)

/-- Case-insensitive variant of `splitAtFirst`. -/
def splitAtFirstCI (pat : List Char) : List Char → Option (List Char)
  | [] => none
  | c :: rest =>
    if isPrefixCI pat (c :: rest) then some []
    else
      match splitAtFirstCI pat rest with
      | some pre => some (c :: pre)
      | none => none

/-- Modelled from the spec: the body-marker match the specification asks for,
identical to `tryMatchBody` except that the markers are compared
case-insensitively. -/
def tryMatchBodyCI (l : List Char) : Option (List Char) :=
  if isPrefixCI ("<body".toList) l then
    match (l.drop 5).dropWhile (fun c => c ≠ '>') with
    | [] => none
    | _ :: tail => splitAtFirstCI ("</body>".toList) tail
  else none

/-- Modelled from the spec: leftmost case-insensitive body-marker match. -/
def findBodyContentCI : List Char → Option (List Char)
  | [] => none
  | c :: rest =>
    match tryMatchBodyCI (c :: rest) with
    | some content => some content
    | none => findBodyContentCI rest

/-- Modelled from the spec: captured group of the case-insensitive match, or
empty when there is none. -/
def extractBodyCI (textResponse : List Char) : List Char :=
  match findBodyContentCI textResponse with
  | some m => m
  | none => []

/-- Modelled from the spec: per-candidate extracted content under
case-insensitive marker matching, as the claim states it. -/
def specExtractedContentCI (cand : GenaiCandidate) : List Char :=
  trimChars (extractBodyCI (specCandidateText cand))

/-- Modelled from the spec: first usable candidate under case-insensitive
marker matching, as the claim states it. -/
def specExtractFirstUsableCI (cands : List GenaiCandidate) : Option (List Char) :=
  (cands.map specExtractedContentCI).find? (fun t => !t.isEmpty)

/-- Label for one external-service invocation made while handling a request. -/
inductive ExtCall where
  | verifyCall
  | analyzeCall
  deriving DecidableEq

/-- Behaviour of the external collaborators during one request: the
verification service (`none` models a Go-level error from `VerifyToken`),
the result of reading the uploaded file, and the generation backend
(`none` models a transport error, otherwise the candidate list). -/
structure Gateways where
  verify : String → Option Bool
  readImage : Option (List Nat)
  generate : Option (List GenaiCandidate)

/-- WasteSortingRequest (models package): the fields the service consumes.
The file header is reduced to its declared Content-Type; `none` models a nil
header pointer. -/
structure WasteSortingRequest where
  postalCode : String
  recaptchaCode : String
  language : String
  imageHeader : Option String
  deriving DecidableEq

/-- WasteSortingResponse (models package). Absent JSON fields are the empty
string, as for the Go zero value. -/
structure WasteSortingResponse where
  success : Bool
  html : String := ""
  error : String := ""
  deriving DecidableEq

/-- Result of one handler invocation: the response, the Go-level error value
returned beside it, and the external calls performed on the way. -/
structure PipelineOut where
  resp : WasteSortingResponse
  goErr : Option Unit
  calls : List ExtCall
  deriving DecidableEq

/-- processImageWithGemini (waste_sorting_service.go) with the two effects
abstracted: a failing `io.ReadAll` returns before the backend is contacted;
otherwise `GenerateContent` is one external call, and its candidate list is
fed to the extraction loop (an empty list is the `no response` error). -/
def processImageWithGemini (g : Gateways) : Option (List Char) × List ExtCall :=
  match g.readImage with
  | none => (none, [])
  | some _ =>
    match g.generate with
    | none => (none, [ExtCall.analyzeCall])
    | some cands =>
      if cands.isEmpty then (none, [ExtCall.analyzeCall])
      else (extractFromCandidates cands, [ExtCall.analyzeCall])

/-- ProcessWasteImage (waste_sorting_service.go): postal-code validation, then
image validation, then reCAPTCHA verification, then analysis; each failure is
a localized `success=false` response paired with a nil Go error. -/
def ProcessWasteImage (g : Gateways) (req : WasteSortingRequest) : PipelineOut :=
  if !isValidGermanPostalCode req.postalCode then
    { resp := { success := false, error := GetErrorMessage req.language "invalid_postal_code" },
      goErr := none, calls := [] }
  else if !isValidImageFile req.imageHeader then
    { resp := { success := false, error := GetErrorMessage req.language "invalid_image" },
      goErr := none, calls := [] }
  else
    match g.verify req.recaptchaCode with
    | some true =>
      match processImageWithGemini g with
      | (some html, analysisCalls) =>
        { resp := { success := true, html := String.mk html },
          goErr := none, calls := ExtCall.verifyCall :: analysisCalls }
      | (none, analysisCalls) =>
        { resp := { success := false, error := GetErrorMessage req.language "processing_error" },
          goErr := none, calls := ExtCall.verifyCall :: analysisCalls }
    | _ =>
      { resp := { success := false, error := GetErrorMessage req.language "recaptcha_failed" },
        goErr := none, calls := [ExtCall.verifyCall] }

/-- The parsed multipart form as the handler sees it: whether
`ParseMultipartForm` succeeded, the three text fields, and the image file
part when `FormFile` finds one (reduced to its declared Content-Type). -/
structure Form where
  parseOk : Bool
  postalCode : String
  recaptchaCode : String
  language : String
  image : Option String
  deriving DecidableEq

/-- The language defaulting step of HandleRequest
(waste_sorting_handler.go): an unsupported code becomes `en`. -/
def normalizeLanguage (language : String) : String :=
  if IsLanguageSupported language then language else "en"

/-- HandleRequest (waste_sorting_handler.go): parse the form, default the
language, check the required fields, fetch the file part, and delegate to
`ProcessWasteImage`. -/
def HandleRequest (g : Gateways) (form : Form) : PipelineOut :=
  if !form.parseOk then
    { resp := { success := false, error := "Failed to parse form" },
      goErr := none, calls := [] }
  else if form.postalCode = "" ∨ form.recaptchaCode = "" then
    { resp := { success := false,
                error := GetErrorMessage (normalizeLanguage form.language) "missing_fields" },
      goErr := none, calls := [] }
  else
    match form.image with
    | none =>
      { resp := { success := false,
                  error := GetErrorMessage (normalizeLanguage form.language) "invalid_image" },
        goErr := none, calls := [] }
    | some contentType =>
      ProcessWasteImage g
        { postalCode := form.postalCode
          recaptchaCode := form.recaptchaCode
          language := normalizeLanguage form.language
          imageHeader := some contentType }

/-- The inbound HTTP request as Invoke (invoke.go) inspects it: the method,
whether the Content-Type header contains `multipart/form-data`, whether the
request context is still alive, and the form the handler will parse. -/
structure HttpRequest where
  method : String
  contentTypeMultipart : Bool
  ctxOk : Bool
  form : Form
  deriving DecidableEq

/-- Body written by Invoke: empty (preflight), plain text (`http.Error`), or
the JSON-encoded response (`WriteJSONResponse`). -/
inductive HttpBody where
  | empty
  | text (s : String)
  | json (r : WasteSortingResponse)
  deriving DecidableEq

/-- Status and body written by one Invoke call. -/
structure HttpResult where
  status : Nat
  body : HttpBody
  deriving DecidableEq

/-- Invoke (invoke.go): OPTIONS preflight, the context and container guards,
the POST-with-multipart route (handler errors become 500, otherwise the
response is JSON with 200 on success and 400 otherwise), and the 404 default. -/
def Invoke (g : Gateways) (containerOk : Bool) (r : HttpRequest) : HttpResult :=
  if r.method = "OPTIONS" then { status := 200, body := HttpBody.empty }
  else if !r.ctxOk then { status := 500, body := HttpBody.text "Request context is invalid" }
  else if !containerOk then
    { status := 500, body := HttpBody.text "Failed to initialize application" }
  else if r.method = "POST" ∧ r.contentTypeMultipart = true then
    match HandleRequest g r.form with
    | { resp := _, goErr := some _, calls := _ } =>
      { status := 500, body := HttpBody.text "Internal server error" }
    | { resp := resp, goErr := none, calls := _ } =>
      { status := if resp.success then 200 else 400, body := HttpBody.json resp }
  else { status := 404, body := HttpBody.text "Not found" }

/-- The fixed acceptance threshold on the risk score (recaptcha service,
`Score >= 0.5`; the float literal 0.5 is exactly one half). -/
def recaptchaScoreThreshold : ℚ := mkRat 1 2

/-- VerifyToken (recaptcha service): fails when configuration is missing, the
client cannot be built, or the assessment call errors; on success the token
must be structurally valid and the risk score at least the threshold. The
first component is the returned boolean, the second the Go error value. -/
def VerifyToken (projectID siteKey : String) (clientOk : Bool)
    (assessment : Option (Bool × ℚ)) (_token : String) : Bool × Option Unit :=
  if projectID = "" ∨ siteKey = "" then (false, some ())
  else if !clientOk then (false, some ())
  else
    match assessment with
    | none => (false, some ())
    | some a => (a.1 && decide (recaptchaScoreThreshold ≤ a.2), none)

/-- The service-side view of `VerifyToken` as `ProcessWasteImage` consumes it:
a Go error collapses to `none`, otherwise the boolean decision is kept. -/
def verifyViaRecaptcha (projectID siteKey : String) (clientOk : Bool)
    (assessment : Option (Bool × ℚ)) : String → Option Bool :=
  fun token =>
    match VerifyToken projectID siteKey clientOk assessment token with
    | (b, none) => some b
    | (_, some _) => none

/-- Benign external collaborators used to instantiate concrete scenarios. -/
def gatewaysOK : Gateways :=
  { verify := fun _ => some true
    readImage := some []
    generate := some [] }

/-- The integer value contributed by one ASCII digit character. -/
def digitVal (c : Char) : Nat := c.toNat - 48

/-- A parsed form whose postal code is non-empty but invalid and whose image
file part is absent. -/
def formNoImageBadPostal : Form :=
  { parseOk := true, postalCode := "999", recaptchaCode := "tok",
    language := "en", image := none }

/-- A parsed form whose postal code is non-empty but invalid and whose image
file part is present with an allow-listed type. -/
def formImageBadPostal : Form :=
  { parseOk := true, postalCode := "999", recaptchaCode := "tok",
    language := "en", image := some "image/jpeg" }

/-- A fully valid German-language form. -/
def formValidDe : Form :=
  { parseOk := true, postalCode := "10115", recaptchaCode := "tok",
    language := "de", image := some "image/png" }

/-- A POST multipart request whose body fails to parse. -/
def parseFailRequest : HttpRequest :=
  { method := "POST", contentTypeMultipart := true, ctxOk := true,
    form := { parseOk := false, postalCode := "10115", recaptchaCode := "tok",
              language := "en", image := none } }

/-- A second parse-failing POST request, with a different language field. -/
def parseFailRequestDe : HttpRequest :=
  { method := "POST", contentTypeMultipart := true, ctxOk := true,
    form := { parseOk := false, postalCode := "", recaptchaCode := "",
              language := "de", image := none } }

/-- A POST multipart request carrying the valid German-language form. -/
def postValidRequest : HttpRequest :=
  { method := "POST", contentTypeMultipart := true, ctxOk := true,
    form := formValidDe }

/-- Gateways whose verification service reports the token structurally valid
with risk score three tenths, below the acceptance threshold. -/
def gRecaptchaLow : Gateways :=
  { verify := verifyViaRecaptcha "proj" "key" true (some (true, mkRat 3 10))
    readImage := some []
    generate := some [] }

/-- A single candidate whose only text segment wraps its payload in
upper-case body markers. -/
def upperBodyCandidates : List GenaiCandidate :=
  [{ content := some { parts := [{ text := "<BODY>x</BODY>".toList }] } }]

theorem isLanguageSupported_false_of_not_mem {l : String}
    (h : l ∉ supportedLanguagesList) : IsLanguageSupported l = false := by
  unfold IsLanguageSupported
  cases hb : supportedLanguagesList.contains l with
  | false => rfl
  | true => exact absurd (List.mem_of_elem_eq_true hb) h

theorem normalizeLanguage_mem (l : String) :
    normalizeLanguage l ∈ supportedLanguagesList := by
  unfold normalizeLanguage
  split
  · next h => exact List.mem_of_elem_eq_true h
  · decide

theorem postal_valid_ne_empty {p : String} (h : isValidGermanPostalCode p = true) :
    ¬ p = "" := by
  intro he
  subst he
  simp [isValidGermanPostalCode] at h

theorem msg_ne_missing :
    ∀ l ∈ supportedLanguagesList,
      ∀ k ∈ ["invalid_postal_code", "invalid_image", "recaptcha_failed", "processing_error"],
        GetErrorMessage l k ≠ GetErrorMessage l "missing_fields" := by
  decide

theorem msg_nonempty :
    ∀ l ∈ supportedLanguagesList, ∀ k ∈ errorKinds, GetErrorMessage l k ≠ "" := by
  decide

theorem processWasteImage_goErr (g : Gateways) (req : WasteSortingRequest) :
    (ProcessWasteImage g req).goErr = none := by
  unfold ProcessWasteImage
  repeat' split
  all_goals rfl

theorem handleRequest_goErr (g : Gateways) (form : Form) :
    (HandleRequest g form).goErr = none := by
  unfold HandleRequest
  repeat' split
  all_goals first
  | rfl
  | apply processWasteImage_goErr

theorem handleRequest_parse_fail (g : Gateways) (form : Form)
    (hp : form.parseOk = false) :
    HandleRequest g form =
      { resp := { success := false, error := "Failed to parse form" },
        goErr := none, calls := [] } := by
  unfold HandleRequest
  rw [hp]
  rfl

theorem handleRequest_missing (g : Gateways) (form : Form)
    (hp : form.parseOk = true) (h : form.postalCode = "" ∨ form.recaptchaCode = "") :
    HandleRequest g form =
      { resp := { success := false,
                  error := GetErrorMessage (normalizeLanguage form.language) "missing_fields" },
        goErr := none, calls := [] } := by
  unfold HandleRequest
  rw [hp]
  simp only [Bool.not_true, Bool.false_eq_true, if_false]
  rw [if_pos h]

theorem handleRequest_image_none (g : Gateways) (form : Form)
    (hp : form.parseOk = true) (h1 : form.postalCode ≠ "") (h2 : form.recaptchaCode ≠ "")
    (hi : form.image = none) :
    HandleRequest g form =
      { resp := { success := false,
                  error := GetErrorMessage (normalizeLanguage form.language) "invalid_image" },
        goErr := none, calls := [] } := by
  unfold HandleRequest
  rw [hp, hi]
  simp only [Bool.not_true, Bool.false_eq_true, if_false]
  rw [if_neg]
  rintro (h | h) <;> contradiction

theorem handleRequest_image_some (g : Gateways) (form : Form) (ct : String)
    (hp : form.parseOk = true) (h1 : form.postalCode ≠ "") (h2 : form.recaptchaCode ≠ "")
    (hi : form.image = some ct) :
    HandleRequest g form =
      ProcessWasteImage g
        { postalCode := form.postalCode, recaptchaCode := form.recaptchaCode,
          language := normalizeLanguage form.language, imageHeader := some ct } := by
  unfold HandleRequest
  rw [hp, hi]
  simp only [Bool.not_true, Bool.false_eq_true, if_false]
  rw [if_neg]
  rintro (h | h) <;> contradiction

theorem processWasteImage_bad_postal (g : Gateways) (req : WasteSortingRequest)
    (h : isValidGermanPostalCode req.postalCode = false) :
    ProcessWasteImage g req =
      { resp := { success := false,
                  error := GetErrorMessage req.language "invalid_postal_code" },
        goErr := none, calls := [] } := by
  unfold ProcessWasteImage
  rw [h]
  rfl

theorem processWasteImage_bad_image (g : Gateways) (req : WasteSortingRequest)
    (h : isValidGermanPostalCode req.postalCode = true)
    (hi : isValidImageFile req.imageHeader = false) :
    ProcessWasteImage g req =
      { resp := { success := false,
                  error := GetErrorMessage req.language "invalid_image" },
        goErr := none, calls := [] } := by
  unfold ProcessWasteImage
  rw [h, hi]
  rfl

theorem processWasteImage_recaptcha_fail (g : Gateways) (req : WasteSortingRequest)
    (h : isValidGermanPostalCode req.postalCode = true)
    (hi : isValidImageFile req.imageHeader = true)
    (hv : g.verify req.recaptchaCode = some false ∨ g.verify req.recaptchaCode = none) :
    ProcessWasteImage g req =
      { resp := { success := false,
                  error := GetErrorMessage req.language "recaptcha_failed" },
        goErr := none, calls := [ExtCall.verifyCall] } := by
  unfold ProcessWasteImage
  rw [h, hi]
  rcases hv with hv | hv <;> rw [hv] <;> rfl

theorem processWasteImage_verified (g : Gateways) (req : WasteSortingRequest)
    (h : isValidGermanPostalCode req.postalCode = true)
    (hi : isValidImageFile req.imageHeader = true)
    (hv : g.verify req.recaptchaCode = some true) :
    ProcessWasteImage g req =
      match processImageWithGemini g with
      | (some html, analysisCalls) =>
        { resp := { success := true, html := String.mk html },
          goErr := none, calls := ExtCall.verifyCall :: analysisCalls }
      | (none, analysisCalls) =>
        { resp := { success := false,
                    error := GetErrorMessage req.language "processing_error" },
          goErr := none, calls := ExtCall.verifyCall :: analysisCalls } := by
  unfold ProcessWasteImage
  rw [h, hi, hv]
  rfl

theorem invoke_post_multipart (g : Gateways) (r : HttpRequest)
    (hm : r.method = "POST") (hct : r.contentTypeMultipart = true) (hctx : r.ctxOk = true) :
    Invoke g true r =
      { status := if (HandleRequest g r.form).resp.success then 200 else 400,
        body := HttpBody.json (HandleRequest g r.form).resp } := by
  unfold Invoke
  rw [hm, hctx]
  rw [if_neg (by decide)]
  rw [if_neg (by decide)]
  rw [if_neg (by decide)]
  rw [if_pos ⟨rfl, hct⟩]
  rcases hHR : HandleRequest g r.form with ⟨resp, goErr, calls⟩
  have hge := handleRequest_goErr g r.form
  rw [hHR] at hge
  simp only at hge
  subst hge
  rfl

theorem handleRequest_unsupported_language (g : Gateways) (parseOk : Bool)
    (postal recaptcha : String) (image : Option String) (L : String)
    (hsup : IsLanguageSupported L = false) :
    HandleRequest g
      { parseOk := parseOk, postalCode := postal, recaptchaCode := recaptcha,
        language := L, image := image } =
    HandleRequest g
      { parseOk := parseOk, postalCode := postal, recaptchaCode := recaptcha,
        language := "en", image := image } := by
  have hnorm : normalizeLanguage L = "en" := by
    unfold normalizeLanguage
    rw [hsup]
    rfl
  have hnormEn : normalizeLanguage "en" = "en" := by decide
  unfold HandleRequest
  dsimp only
  rw [hnorm, hnormEn]

theorem list_length_five {α : Type} (l : List α) (h : l.length = 5) :
    ∃ a b c d e : α, l = [a, b, c, d, e] := by
  match l, h with
  | [a, b, c, d, e], _ => exact ⟨a, b, c, d, e, rfl⟩

theorem postal_iff :
    ∀ s : String, isValidGermanPostalCode s = true ↔
      ∃ d0 d1 d2 d3 d4 : Char, s.data = [d0, d1, d2, d3, d4] ∧
        (d0.isDigit ∧ d1.isDigit ∧ d2.isDigit ∧ d3.isDigit ∧ d4.isDigit) ∧
        1001 ≤ digitVal d0 * 10000 + digitVal d1 * 1000 + digitVal d2 * 100 +
          digitVal d3 * 10 + digitVal d4 ∧
        digitVal d0 * 10000 + digitVal d1 * 1000 + digitVal d2 * 100 +
          digitVal d3 * 10 + digitVal d4 ≤ 99998 := by
  intro s
  constructor
  · intro h
    simp [isValidGermanPostalCode] at h
    obtain ⟨⟨hlen, hdig⟩, h1, h2⟩ := h
    have hlen5 : s.data.length = 5 := hlen
    obtain ⟨a, b, c, d, e, hl⟩ := list_length_five s.data hlen5
    rw [hl] at h1 h2 hdig
    simp only [List.mem_cons, List.not_mem_nil, or_false, forall_eq_or_imp, forall_eq] at hdig
    refine ⟨a, b, c, d, e, hl,
      ⟨hdig.1, hdig.2.1, hdig.2.2.1, hdig.2.2.2.1, hdig.2.2.2.2⟩, ?_, ?_⟩
    · simp only [strToNat, List.foldl] at h1
      unfold digitVal
      omega
    · simp only [strToNat, List.foldl] at h2
      unfold digitVal
      omega
  · rintro ⟨a, b, c, d, e, hl, ⟨ha, hb, hc, hd, he⟩, h1, h2⟩
    simp [isValidGermanPostalCode, hl, ha, hb, hc, hd, he, strToNat, List.foldl]
    unfold digitVal at h1 h2
    omega

theorem concatParts_eq (parts : List GenaiPart) :
    concatParts parts = (parts.map GenaiPart.text).flatten := by
  suffices h : ∀ acc, parts.foldl (fun acc p => if p.text = [] then acc else acc ++ p.text) acc =
      acc ++ (parts.map GenaiPart.text).flatten by
    simpa using h []
  induction parts with
  | nil => intro acc; simp
  | cons p rest ih =>
    intro acc
    simp only [List.foldl_cons, List.map_cons, List.flatten_cons]
    rw [ih]
    by_cases hp : p.text = []
    · rw [if_pos hp, hp]
      simp
    · rw [if_neg hp]
      simp [List.append_assoc]

theorem specExtractedContent_eq (cand : GenaiCandidate) (content : GenaiContent)
    (hc : cand.content = some content) :
    specExtractedContent cand = trimChars (extractBody (concatParts content.parts)) := by
  unfold specExtractedContent specCandidateText
  rw [hc, concatParts_eq]

theorem specExtractedContent_none (cand : GenaiCandidate) (hc : cand.content = none) :
    specExtractedContent cand = [] := by
  unfold specExtractedContent specCandidateText
  rw [hc]
  rfl

theorem specExtractFirstUsable_cons (cand : GenaiCandidate) (rest : List GenaiCandidate) :
    specExtractFirstUsable (cand :: rest) =
      if (specExtractedContent cand).isEmpty then specExtractFirstUsable rest
      else some (specExtractedContent cand) := by
  unfold specExtractFirstUsable
  simp only [List.map_cons, List.find?_cons]
  cases h : (specExtractedContent cand).isEmpty with
  | true => simp [h]
  | false => simp [h]

/-- C1 (amended): for every request that passes the missing-fields check, if
the postal code fails validation and the image file part is PRESENT, the
pipeline terminates with the invalid_postal_code error even when the declared
content type is disallowed; when the image file part is ABSENT, the handler
returns the invalid_image error before postal-code validation is reached. -/
theorem claim_c1 (g : Gateways) (form : Form)
    (hp : form.parseOk = true) (h1 : form.postalCode ≠ "") (h2 : form.recaptchaCode ≠ "")
    (hbad : isValidGermanPostalCode form.postalCode = false) :
    (∀ ct, form.image = some ct →
      HandleRequest g form =
        { resp := { success := false,
                    error := GetErrorMessage (normalizeLanguage form.language) "invalid_postal_code" },
          goErr := none, calls := [] }) ∧
    (form.image = none →
      HandleRequest g form =
        { resp := { success := false,
                    error := GetErrorMessage (normalizeLanguage form.language) "invalid_image" },
          goErr := none, calls := [] }) := by
  constructor
  · intro ct hi
    rw [handleRequest_image_some g form ct hp h1 h2 hi,
      processWasteImage_bad_postal _ _ hbad]
  · intro hi
    exact handleRequest_image_none g form hp h1 h2 hi

/-- C1, counterexample to the claim as stated: a request with a non-empty
invalid postal code and non-empty token, but no image file part, produces the
invalid_image error rather than the invalid_postal_code error. -/
theorem claim_c1_counterexample :
    (HandleRequest gatewaysOK formNoImageBadPostal).resp =
      { success := false, error := GetErrorMessage "en" "invalid_image" } ∧
    GetErrorMessage "en" "invalid_image" ≠ GetErrorMessage "en" "invalid_postal_code" ∧
    formNoImageBadPostal.postalCode ≠ "" ∧ formNoImageBadPostal.recaptchaCode ≠ "" ∧
    isValidGermanPostalCode formNoImageBadPostal.postalCode = false := by
  decide

/-- C1, witness: with the image part present, the invalid postal code 999 is
reported as invalid_postal_code. -/
theorem claim_c1_witness :
    isValidGermanPostalCode "999" = false ∧
    HandleRequest gatewaysOK formImageBadPostal =
      { resp := { success := false, error := GetErrorMessage "en" "invalid_postal_code" },
        goErr := none, calls := [] } := by
  refine ⟨by decide, ?_⟩
  have h := (claim_c1 gatewaysOK formImageBadPostal rfl (by decide) (by decide)
    (by decide)).1 "image/jpeg" rfl
  rw [h]
  decide

/-- C2: no external call is made unless the postal code validates, the image
part is present with an allow-listed declared content type, and the token is
non-empty; a request failing any of these produces its error response with
zero external calls. -/
theorem claim_c2 (g : Gateways) (form : Form) :
    ((HandleRequest g form).calls ≠ [] →
      isValidGermanPostalCode form.postalCode = true ∧
      (∃ ct, form.image = some ct ∧ isValidImageFile (some ct) = true) ∧
      form.recaptchaCode ≠ "") ∧
    (¬(isValidGermanPostalCode form.postalCode = true ∧
        (∃ ct, form.image = some ct ∧ isValidImageFile (some ct) = true) ∧
        form.recaptchaCode ≠ "") →
      (HandleRequest g form).calls = [] ∧
      ExtCall.verifyCall ∉ (HandleRequest g form).calls ∧
      ExtCall.analyzeCall ∉ (HandleRequest g form).calls ∧
      (HandleRequest g form).resp.success = false ∧
      (HandleRequest g form).resp.error ≠ "") := by
  have hmem := normalizeLanguage_mem form.language
  by_cases hp : form.parseOk = true
  case neg =>
    have hp2 : form.parseOk = false := by revert hp; cases form.parseOk <;> simp
    rw [handleRequest_parse_fail g form hp2]
    exact ⟨fun h => absurd rfl h,
      fun _ => ⟨rfl, List.not_mem_nil _, List.not_mem_nil _, rfl, by decide⟩⟩
  case pos =>
  by_cases hor : form.postalCode = "" ∨ form.recaptchaCode = ""
  · rw [handleRequest_missing g form hp hor]
    exact ⟨fun h => absurd rfl h,
      fun _ => ⟨rfl, List.not_mem_nil _, List.not_mem_nil _, rfl,
        msg_nonempty _ hmem "missing_fields" (by decide)⟩⟩
  · push_neg at hor
    obtain ⟨h1, h2⟩ := hor
    cases hi : form.image with
    | none =>
      rw [handleRequest_image_none g form hp h1 h2 hi]
      exact ⟨fun h => absurd rfl h,
        fun _ => ⟨rfl, List.not_mem_nil _, List.not_mem_nil _, rfl,
          msg_nonempty _ hmem "invalid_image" (by decide)⟩⟩
    | some ct =>
      rw [handleRequest_image_some g form ct hp h1 h2 hi]
      cases hpost : isValidGermanPostalCode form.postalCode with
      | false =>
        rw [processWasteImage_bad_postal _ _ hpost]
        exact ⟨fun h => absurd rfl h,
          fun _ => ⟨rfl, List.not_mem_nil _, List.not_mem_nil _, rfl,
            msg_nonempty _ hmem "invalid_postal_code" (by decide)⟩⟩
      | true =>
        cases hctv : isValidImageFile (some ct) with
        | false =>
          rw [processWasteImage_bad_image _ _ hpost hctv]
          exact ⟨fun h => absurd rfl h,
            fun _ => ⟨rfl, List.not_mem_nil _, List.not_mem_nil _, rfl,
              msg_nonempty _ hmem "invalid_image" (by decide)⟩⟩
        | true =>
          exact ⟨fun _ => ⟨rfl, ⟨ct, rfl, hctv⟩, h2⟩,
            fun hneg => absurd ⟨rfl, ⟨ct, rfl, hctv⟩, h2⟩ hneg⟩

/-- C2, witness: the invalid postal code 999 fails validation, and the
request is answered by an error response with zero external calls, neither
gateway being invoked. -/
theorem claim_c2_witness :
    ¬(isValidGermanPostalCode "999" = true ∧
      (∃ ct, formImageBadPostal.image = some ct ∧ isValidImageFile (some ct) = true) ∧
      "tok" ≠ "") ∧
    (HandleRequest gatewaysOK formImageBadPostal).calls = [] ∧
    ExtCall.verifyCall ∉ (HandleRequest gatewaysOK formImageBadPostal).calls ∧
    ExtCall.analyzeCall ∉ (HandleRequest gatewaysOK formImageBadPostal).calls ∧
    (HandleRequest gatewaysOK formImageBadPostal).resp.success = false ∧
    (HandleRequest gatewaysOK formImageBadPostal).resp.error ≠ "" := by
  have hneg : ¬(isValidGermanPostalCode formImageBadPostal.postalCode = true ∧
      (∃ ct, formImageBadPostal.image = some ct ∧ isValidImageFile (some ct) = true) ∧
      formImageBadPostal.recaptchaCode ≠ "") := by
    rintro ⟨hv, -, -⟩
    exact absurd hv (by decide)
  exact ⟨hneg, (claim_c2 gatewaysOK formImageBadPostal).2 hneg⟩

/-- C3: a string passes the postal-code validator exactly when it consists of
five ASCII decimal digits whose decimal value lies between 1001 and 99998,
together with the boundary examples of the specification. -/
theorem claim_c3 :
    (∀ s : String, isValidGermanPostalCode s = true ↔
      ∃ d0 d1 d2 d3 d4 : Char, s.data = [d0, d1, d2, d3, d4] ∧
        (d0.isDigit ∧ d1.isDigit ∧ d2.isDigit ∧ d3.isDigit ∧ d4.isDigit) ∧
        1001 ≤ digitVal d0 * 10000 + digitVal d1 * 1000 + digitVal d2 * 100 +
          digitVal d3 * 10 + digitVal d4 ∧
        digitVal d0 * 10000 + digitVal d1 * 1000 + digitVal d2 * 100 +
          digitVal d3 * 10 + digitVal d4 ≤ 99998) ∧
    isValidGermanPostalCode "01001" = true ∧
    isValidGermanPostalCode "00999" = false ∧
    isValidGermanPostalCode "99998" = true ∧
    isValidGermanPostalCode "99999" = false ∧
    isValidGermanPostalCode "1234" = false ∧
    isValidGermanPostalCode "123456" = false ∧
    isValidGermanPostalCode "12a45" = false :=
  ⟨postal_iff, by decide, by decide, by decide, by decide, by decide, by decide, by decide⟩

/-- C3, witness: the characterization applied to the concrete code 10115. -/
theorem claim_c3_witness : isValidGermanPostalCode "10115" = true :=
  (claim_c3.1 "10115").mpr
    ⟨'1', '0', '1', '1', '5', rfl, by decide, by decide, by decide⟩

/-- C4 (amended): the extraction step concatenates each candidate's text
segments, keeps only the content between the first body markers matched
CASE-SENSITIVELY (tolerating attributes on the opening tag and multi-line
content), skips candidates whose extracted content is empty after trimming,
returns the first candidate with non-empty extracted content, and fails when
no candidate yields usable content. -/
theorem claim_c4 :
    ∀ cands : List GenaiCandidate, extractFromCandidates cands = specExtractFirstUsable cands := by
  intro cands
  induction cands with
  | nil => rfl
  | cons cand rest ih =>
    rw [specExtractFirstUsable_cons]
    cases hc : cand.content with
    | none =>
      rw [specExtractedContent_none cand hc]
      unfold extractFromCandidates
      rw [hc]
      simpa using ih
    | some content =>
      rw [specExtractedContent_eq cand content hc]
      unfold extractFromCandidates
      rw [hc]
      dsimp only
      by_cases hparts : content.parts = []
      · rw [if_pos hparts]
        have hce : concatParts content.parts = [] := by rw [hparts]; rfl
        rw [hce]
        simpa using ih
      · rw [if_neg hparts]
        by_cases htext : concatParts content.parts = []
        · rw [if_pos htext, htext]
          simpa using ih
        · rw [if_neg htext]
          by_cases htrim : trimChars (extractBody (concatParts content.parts)) = []
          · rw [if_pos htrim, htrim]
            simpa using ih
          · rw [if_neg htrim]
            rw [if_neg (by simpa [List.isEmpty_iff] using htrim)]

/-- C4, counterexample to the claim as stated: the source regular expression
is case-sensitive, so a candidate wrapped in upper-case body markers is
skipped entirely, while the case-insensitive extraction the claim describes
would return its content. -/
theorem claim_c4_counterexample :
    extractFromCandidates upperBodyCandidates = none ∧
    specExtractFirstUsableCI upperBodyCandidates = some ['x'] := by
  decide

/-- C5 (amended): a POST multipart request whose body fails to parse is
answered with HTTP status 400, not 500, carrying the JSON response with the
non-localized generic message produced before the language is known. -/
theorem claim_c5 (g : Gateways) (r : HttpRequest)
    (hm : r.method = "POST") (hct : r.contentTypeMultipart = true)
    (hctx : r.ctxOk = true) (hp : r.form.parseOk = false) :
    Invoke g true r =
      { status := 400,
        body := HttpBody.json { success := false, error := "Failed to parse form" } } := by
  rw [invoke_post_multipart g r hm hct hctx, handleRequest_parse_fail g r.form hp]
  rfl

/-- C5, counterexample to the claim as stated: the parse failure is answered
with status 400, not the claimed 500. -/
theorem claim_c5_counterexample :
    (Invoke gatewaysOK true parseFailRequest).status = 400 ∧
    (Invoke gatewaysOK true parseFailRequest).status ≠ 500 ∧
    (Invoke gatewaysOK true parseFailRequest).body =
      HttpBody.json { success := false, error := "Failed to parse form" } := by
  decide

/-- C5, witness: the amended statement applied to a concrete parse-failing
request. -/
theorem claim_c5_witness :
    parseFailRequestDe.form.parseOk = false ∧
    Invoke gatewaysOK true parseFailRequestDe =
      { status := 400,
        body := HttpBody.json { success := false, error := "Failed to parse form" } } :=
  ⟨rfl, claim_c5 gatewaysOK parseFailRequestDe rfl rfl rfl rfl⟩

/-- C6: acceptance requires token validity AND a risk score at least one
half; a structurally valid token with a lower score yields the boolean false
with a nil error, and a pipeline whose verification gateway answers false
responds with the localized recaptcha_failed message. -/
theorem claim_c6 (projectID siteKey : String) (score : ℚ) (tok : String)
    (g : Gateways) (form : Form) (ct : String)
    (hpid : projectID ≠ "") (hsk : siteKey ≠ "") (hscore : score < recaptchaScoreThreshold) :
    (∀ valid : Bool, ∀ s : ℚ,
      VerifyToken projectID siteKey true (some (valid, s)) tok =
        (valid && decide (recaptchaScoreThreshold ≤ s), none)) ∧
    VerifyToken projectID siteKey true (some (true, score)) tok = (false, none) ∧
    verifyViaRecaptcha projectID siteKey true (some (true, score)) tok = some false ∧
    (form.parseOk = true → form.recaptchaCode ≠ "" → form.image = some ct →
      isValidGermanPostalCode form.postalCode = true →
      isValidImageFile (some ct) = true →
      g.verify form.recaptchaCode = some false →
      (HandleRequest g form).resp =
        { success := false,
          error := GetErrorMessage (normalizeLanguage form.language) "recaptcha_failed" }) := by
  have hgen : ∀ valid : Bool, ∀ s : ℚ,
      VerifyToken projectID siteKey true (some (valid, s)) tok =
        (valid && decide (recaptchaScoreThreshold ≤ s), none) := by
    intro valid s
    unfold VerifyToken
    rw [if_neg (by rintro (h | h) <;> contradiction)]
    rfl
  have hlow : VerifyToken projectID siteKey true (some (true, score)) tok = (false, none) := by
    rw [hgen true score]
    rw [decide_eq_false (not_le.mpr hscore)]
    rfl
  refine ⟨hgen, hlow, ?_, ?_⟩
  · unfold verifyViaRecaptcha
    rw [hlow]
  · intro hp hrc hi hpost hctv hv
    have h1 := postal_valid_ne_empty hpost
    rw [handleRequest_image_some g form ct hp h1 hrc hi,
      processWasteImage_recaptcha_fail _ _ hpost hctv (Or.inl hv)]

/-- C6, witness: a verification service answering valid with score three
tenths makes the concrete German-language request fail with the localized
recaptcha_failed message. -/
theorem claim_c6_witness :
    mkRat 3 10 < recaptchaScoreThreshold ∧
    (HandleRequest gRecaptchaLow formValidDe).resp =
      { success := false, error := GetErrorMessage "de" "recaptcha_failed" } := by
  refine ⟨by decide, ?_⟩
  have hv : gRecaptchaLow.verify formValidDe.recaptchaCode = some false := by decide
  have h := (claim_c6 "proj" "key" (mkRat 3 10) "tok" gRecaptchaLow formValidDe "image/png"
    (by decide) (by decide) (by decide)).2.2.2 rfl (by decide) rfl (by decide) (by decide) hv
  rw [h]
  decide

/-- C7: every language code outside the fixed supported set is reported
unsupported, and the whole handler output on a request carrying it equals the
output on the same request carrying the fallback code en. -/
theorem claim_c7 (L : String) (hL : L ∉ supportedLanguagesList) :
    IsLanguageSupported L = false ∧
    ∀ (g : Gateways) (parseOk : Bool) (postal recaptcha : String) (image : Option String),
      HandleRequest g
        { parseOk := parseOk, postalCode := postal, recaptchaCode := recaptcha,
          language := L, image := image } =
      HandleRequest g
        { parseOk := parseOk, postalCode := postal, recaptchaCode := recaptcha,
          language := "en", image := image } := by
  have hsup := isLanguageSupported_false_of_not_mem hL
  refine ⟨hsup, ?_⟩
  intro g parseOk postal recaptcha image
  exact handleRequest_unsupported_language g parseOk postal recaptcha image L hsup

/-- C7, witness: the unsupported code xx behaves exactly like en on a
concrete request. -/
theorem claim_c7_witness :
    IsLanguageSupported "xx" = false ∧
    HandleRequest gatewaysOK
      { parseOk := true, postalCode := "10115", recaptchaCode := "tok",
        language := "xx", image := some "image/png" } =
    HandleRequest gatewaysOK
      { parseOk := true, postalCode := "10115", recaptchaCode := "tok",
        language := "en", image := some "image/png" } := by
  have h := claim_c7 "xx" (by decide)
  exact ⟨h.1, h.2 gatewaysOK true "10115" "tok" (some "image/png")⟩

/-- C8: for every supported language and every error kind, the localized
message is non-empty and distinct from the generic fallback string. -/
theorem claim_c8 :
    (supportedLanguagesList.all fun l => errorKinds.all fun k =>
      !(GetErrorMessage l k == "") && !(GetErrorMessage l k == "An error occurred")) = true := by
  decide

/-- C9: the service and the handler always return a nil Go error beside a
structured response, for every behaviour of the external gateways; hence on
the POST multipart route the internal-server-error branch is unreachable and
every pipeline failure reaches the client as JSON with status 400. -/
theorem claim_c9 (g : Gateways) (req : WasteSortingRequest) (r : HttpRequest)
    (hm : r.method = "POST") (hct : r.contentTypeMultipart = true) (hctx : r.ctxOk = true) :
    (ProcessWasteImage g req).goErr = none ∧
    (HandleRequest g r.form).goErr = none ∧
    Invoke g true r =
      { status := if (HandleRequest g r.form).resp.success then 200 else 400,
        body := HttpBody.json (HandleRequest g r.form).resp } ∧
    (Invoke g true r).status ≠ 500 ∧
    ((HandleRequest g r.form).resp.success = false → (Invoke g true r).status = 400) := by
  have hinv := invoke_post_multipart g r hm hct hctx
  refine ⟨processWasteImage_goErr g req, handleRequest_goErr g r.form, hinv, ?_, ?_⟩
  · rw [hinv]
    cases h : (HandleRequest g r.form).resp.success <;> simp [h]
  · intro h
    rw [hinv]
    simp [h]

/-- C9, witness: the no-error property and the unreachability of the 500
branch at a concrete request. -/
theorem claim_c9_witness :
    (ProcessWasteImage gatewaysOK
      { postalCode := "10115", recaptchaCode := "tok", language := "de",
        imageHeader := some "image/png" }).goErr = none ∧
    (HandleRequest gatewaysOK postValidRequest.form).goErr = none ∧
    (Invoke gatewaysOK true postValidRequest).status ≠ 500 := by
  have h := claim_c9 gatewaysOK
    { postalCode := "10115", recaptchaCode := "tok", language := "de",
      imageHeader := some "image/png" }
    postValidRequest rfl rfl rfl
  exact ⟨h.1, h.2.1, h.2.2.2.1⟩

/-- C10: an empty language field never produces the missing_fields error: it
is silently normalized to en before the missing-fields check, which inspects
only the postal code and the token. -/
theorem claim_c10 (g : Gateways) (parseOk : Bool) (postal recaptcha : String)
    (image : Option String) :
    (HandleRequest g
        { parseOk := parseOk, postalCode := postal, recaptchaCode := recaptcha,
          language := "", image := image } =
      HandleRequest g
        { parseOk := parseOk, postalCode := postal, recaptchaCode := recaptcha,
          language := "en", image := image }) ∧
    (∀ lang, parseOk = true → postal ≠ "" → recaptcha ≠ "" →
      (HandleRequest g
          { parseOk := parseOk, postalCode := postal, recaptchaCode := recaptcha,
            language := lang, image := image }).resp ≠
        { success := false,
          error := GetErrorMessage (normalizeLanguage lang) "missing_fields" }) ∧
    (∀ lang, parseOk = true → (postal = "" ∨ recaptcha = "") →
      (HandleRequest g
          { parseOk := parseOk, postalCode := postal, recaptchaCode := recaptcha,
            language := lang, image := image }).resp =
        { success := false,
          error := GetErrorMessage (normalizeLanguage lang) "missing_fields" }) := by
  refine ⟨handleRequest_unsupported_language g parseOk postal recaptcha image "" (by decide),
    ?_, ?_⟩
  · intro lang hp h1 h2
    have hmem := normalizeLanguage_mem lang
    cases hi : image with
    | none =>
      rw [handleRequest_image_none g _ hp h1 h2 rfl]
      intro heq
      have he := congrArg WasteSortingResponse.error heq
      dsimp only at he
      exact msg_ne_missing (normalizeLanguage lang) hmem "invalid_image" (by decide) he
    | some ct =>
      rw [handleRequest_image_some g _ ct hp h1 h2 rfl]
      cases hpost : isValidGermanPostalCode postal with
      | false =>
        rw [processWasteImage_bad_postal _ _ hpost]
        intro heq
        have he := congrArg WasteSortingResponse.error heq
        dsimp only at he
        exact msg_ne_missing (normalizeLanguage lang) hmem "invalid_postal_code" (by decide) he
      | true =>
        cases hctv : isValidImageFile (some ct) with
        | false =>
          rw [processWasteImage_bad_image _ _ hpost hctv]
          intro heq
          have he := congrArg WasteSortingResponse.error heq
          dsimp only at he
          exact msg_ne_missing (normalizeLanguage lang) hmem "invalid_image" (by decide) he
        | true =>
          cases hv : g.verify recaptcha with
          | none =>
            rw [processWasteImage_recaptcha_fail _ _ hpost hctv (Or.inr hv)]
            intro heq
            have he := congrArg WasteSortingResponse.error heq
            dsimp only at he
            exact msg_ne_missing (normalizeLanguage lang) hmem "recaptcha_failed" (by decide) he
          | some b =>
            cases b with
            | false =>
              rw [processWasteImage_recaptcha_fail _ _ hpost hctv (Or.inl hv)]
              intro heq
              have he := congrArg WasteSortingResponse.error heq
              dsimp only at he
              exact msg_ne_missing (normalizeLanguage lang) hmem "recaptcha_failed" (by decide) he
            | true =>
              rw [processWasteImage_verified _ _ hpost hctv hv]
              rcases hA : processImageWithGemini g with ⟨res, ac⟩
              cases res with
              | some html =>
                intro heq
                have hs := congrArg WasteSortingResponse.success heq
                dsimp only at hs
                exact Bool.true_eq_false.mp hs
              | none =>
                intro heq
                have he := congrArg WasteSortingResponse.error heq
                dsimp only at he
                exact msg_ne_missing (normalizeLanguage lang) hmem "processing_error" (by decide) he
  · intro lang hp hor
    rw [handleRequest_missing g _ hp hor]

/-- C10, witness: an empty language behaves like en on a concrete request,
and the missing_fields error appears exactly when a required text field is
empty. -/
theorem claim_c10_witness :
    (HandleRequest gatewaysOK
        { parseOk := true, postalCode := "10115", recaptchaCode := "tok",
          language := "", image := some "image/png" } =
      HandleRequest gatewaysOK
        { parseOk := true, postalCode := "10115", recaptchaCode := "tok",
          language := "en", image := some "image/png" }) ∧
    (HandleRequest gatewaysOK
        { parseOk := true, postalCode := "10115", recaptchaCode := "",
          language := "uk", image := none }).resp =
      { success := false,
        error := GetErrorMessage (normalizeLanguage "uk") "missing_fields" } := by
  have h := claim_c10 gatewaysOK true "10115" "tok" (some "image/png")
  have h2 := claim_c10 gatewaysOK true "10115" "" none
  exact ⟨h.1, h2.2.2 "uk" rfl (Or.inr rfl)⟩
